/-
Verification of the reporting toolkit (test aggregator, metrics/analytics
engine, notification system) of the AI-studio-test-generator repository.

The Python sources are embedded shallowly:
  * plain result dictionaries become structures with `Option`-valued fields
    (`d.get(k)` becomes the field, `d.get(k, v)` becomes `field.getD v`);
  * floats become `Rat` (all arithmetic in the embedded code is +, *, /);
  * wall-clock instants (`datetime`) become `Int` seconds on a time line;
    `datetime.fromisoformat` (together with the strftime bucket keys used by
    the trend functions) is an injected function parameter, since the claims
    under study never depend on the concrete calendar arithmetic, only on
    whether parsing succeeds;
  * raised exceptions become `Except`/sum results;
  * Python `str.upper`, `str.startswith`, `str.endswith` are modelled
    character-wise over the ASCII range used by the program.
-/
import Mathlib

/-! ## Python string helpers -/

/-- Models Python `str.upper` on the ASCII strings used by the program
(`Char.toUpper` maps exactly the ASCII range a-z). -/
def pyUpper (s : String) : String := ⟨s.data.map Char.toUpper⟩

/-- Models Python `str.startswith`. -/
def pyStartsWith (s p : String) : Bool := p.data.isPrefixOf s.data

/-- Models Python `str.endswith`. -/
def pyEndsWith (s p : String) : Bool := p.data.isSuffixOf s.data

/-! ## test_aggregator.py : the data model

`TestResult.__init__` (lines 24-40) defaults every field; `custom_fields`
(an open string-to-anything mapping never read by any aggregation code)
is omitted. -/

structure TestResult where
  id : String
  name : String
  suite : String
  category : String
  status : String
  duration : Rat
  timestamp : String
  message : String
  error_details : String
  tags : List String
  priority : String
  browser : String
  os : String
  test_type : String
  retry_count : Nat
deriving DecidableEq

/-- Counter semantics: `Counter(result.status for ...)[s]` is the number of
results whose status equals `s` exactly (case sensitive). -/
def statusCount (results : List TestResult) (s : String) : Nat :=
  results.countP (fun r => r.status == s)

/-- Counter over the `suite` field (line 230). -/
def suiteCount (results : List TestResult) (s : String) : Nat :=
  results.countP (fun r => r.suite == s)

/-- Counter over the `category` field (line 233). -/
def categoryCount (results : List TestResult) (s : String) : Nat :=
  results.countP (fun r => r.category == s)

/-- Both time-based views first run
`datetime.fromisoformat` of `result.timestamp` with `Z` replaced by `+00:00`
(lines 262 and 344).  `parse` is the injected model of
`datetime.fromisoformat`; `none` models the raised `ValueError`. -/
def parseResultTime (parse : String → Option Int) (ts : String) : Option Int :=
  parse (ts.replace "Z" "+00:00")

/-- Embeds `TestAggregator._get_recent_results` (lines 255-269): keep a result
when its parsed timestamp is at least `now` minus `hours` hours, and also
keep it when parsing fails (the except branch appends the result). -/
def get_recent_results (parse : String → Option Int) (now : Int)
    (results : List TestResult) (hours : Int) : List TestResult :=
  let cutoff_time := now - hours * 3600
  results.filter (fun r =>
    match parseResultTime parse r.timestamp with
    | some t => decide (cutoff_time ≤ t)
    | none => true)

/-- Return value of `TestAggregator._calculate_trends` (lines 271-284): either
the `no_data` dictionary or the recent-statistics dictionary. -/
inductive Trends where
  | noData
  | data (total_recent : Nat) (pass_rate_recent : Rat)
      (recent_status_breakdown : String → Nat)

/-- Embeds `TestAggregator._calculate_trends` (lines 271-284). -/
def calculate_trends (recent_results : List TestResult) : Trends :=
  if recent_results.isEmpty then .noData
  else
    let total_recent := recent_results.length
    .data total_recent
      (if total_recent > 0 then
        (statusCount recent_results "PASSED" : Rat) / total_recent * 100 else 0)
      (statusCount recent_results)

/-- Return value of `TestAggregator.get_summary`.  The counting and duration
fields are present in both branches of the source; the breakdown, trend,
source-file and `last_updated` keys exist only in the non-empty branch
(lines 204-213 versus 238-253), hence `Option`. -/
structure Summary where
  total : Nat
  passed : Nat
  failed : Nat
  skipped : Nat
  errors : Nat
  pass_rate : Rat
  total_duration : Rat
  avg_duration : Rat
  suite_breakdown : Option (String → Nat)
  category_breakdown : Option (String → Nat)
  status_breakdown : Option (String → Nat)
  recent_trends : Option Trends
  source_files : Option (List String)
  last_updated : Option Int

/-- Embeds `TestAggregator.get_summary` (lines 201-253).  `now` models the
two `datetime.now()` reads (the 24-hour cutoff and `last_updated`);
`source_files` is the `self.source_files` list of the aggregator. -/
def get_summary (parse : String → Option Int) (now : Int)
    (source_files : List String) (results : List TestResult) : Summary :=
  if results.isEmpty then
    { total := 0, passed := 0, failed := 0, skipped := 0, errors := 0
      pass_rate := 0, total_duration := 0, avg_duration := 0
      suite_breakdown := none, category_breakdown := none
      status_breakdown := none, recent_trends := none
      source_files := none, last_updated := none }
  else
    let total := results.length
    let passed := statusCount results "PASSED"
    let total_duration := (results.map (fun r => r.duration)).sum
    { total := total
      passed := passed
      failed := statusCount results "FAILED"
      skipped := statusCount results "SKIPPED"
      errors := statusCount results "ERROR"
      pass_rate := if total > 0 then (passed : Rat) / total * 100 else 0
      total_duration := total_duration
      avg_duration := if total > 0 then total_duration / total else 0
      suite_breakdown := some (suiteCount results)
      category_breakdown := some (categoryCount results)
      status_breakdown := some (statusCount results)
      recent_trends :=
        some (calculate_trends (get_recent_results parse now results 24))
      source_files := some source_files
      last_updated := some now }

/-- Embeds `TestAggregator.get_tests_by_status` (lines 286-288): filter on
`result.status.upper() == status.upper()`. -/
def get_tests_by_status (results : List TestResult) (status : String) :
    List TestResult :=
  results.filter (fun r => pyUpper r.status == pyUpper status)

/-- Embeds `TestAggregator.get_slowest_tests` (lines 303-305):
`sorted(self.results, key=lambda x: x.duration, reverse=True)[:limit]`.
CPython `sorted` is a stable sort; with `reverse=True` equal keys still keep
their input order, which `List.mergeSort` with the reflexive descending
comparison reproduces. -/
def get_slowest_tests (results : List TestResult) (limit : Nat) :
    List TestResult :=
  (results.mergeSort (fun a b => decide (b.duration ≤ a.duration))).take limit

/-! ## test_aggregator.py : trends over time -/

/-- Per-bucket counters of `get_trends_over_time` (line 340). -/
structure PeriodCounts where
  total : Nat
  passed : Nat
  failed : Nat
  skipped : Nat
deriving DecidableEq

/-- Contribution of one record to its bucket (lines 357-363). -/
def bumpPeriod (c : PeriodCounts) (status : String) : PeriodCounts :=
  { total := c.total + 1
    passed := c.passed + (if status = "PASSED" then 1 else 0)
    failed := c.failed + (if status = "FAILED" then 1 else 0)
    skipped := c.skipped + (if status = "SKIPPED" then 1 else 0) }

/-- Defaultdict update: find the key (dict keys keep insertion order) or
append a fresh zero bucket. -/
def insertPeriod : List (String × PeriodCounts) → String → String →
    List (String × PeriodCounts)
  | [], key, status => [(key, bumpPeriod ⟨0, 0, 0, 0⟩ status)]
  | (k, c) :: rest, key, status =>
    if k = key then (k, bumpPeriod c status) :: rest
    else (k, c) :: insertPeriod rest key status

/-- The strftime-based bucket keys of `get_trends_over_time`: models of
the hour format, the day format, and the Monday-of-the-week key. -/
structure KeyFns where
  hourly : Int → String
  daily : Int → String
  weekly : Int → String

/-- Key selection of `get_trends_over_time` (lines 346-355); the final else
branch uses the daily date format. -/
def trendKey (kf : KeyFns) (period : String) (t : Int) : String :=
  if period = "hourly" then kf.hourly t
  else if period = "daily" then kf.daily t
  else if period = "weekly" then kf.weekly t
  else kf.daily t

/-- Loop body of `get_trends_over_time` (lines 342-367): a record whose
timestamp fails to parse is skipped (`continue` in the except branch). -/
def trendStep (parse : String → Option Int) (kf : KeyFns) (period : String)
    (acc : List (String × PeriodCounts)) (r : TestResult) :
    List (String × PeriodCounts) :=
  match parseResultTime parse r.timestamp with
  | none => acc
  | some t => insertPeriod acc (trendKey kf period t) r.status

/-- The `period_data` mapping built by `get_trends_over_time`. -/
def period_data (parse : String → Option Int) (kf : KeyFns) (period : String)
    (results : List TestResult) : List (String × PeriodCounts) :=
  results.foldl (trendStep parse kf period) []

/-- One entry of the `trends` list (lines 377-384). -/
structure TrendEntry where
  period : String
  total : Nat
  passed : Nat
  failed : Nat
  skipped : Nat
  pass_rate : Rat
deriving DecidableEq

/-- Non-empty return value of `get_trends_over_time` (lines 386-394). -/
structure TrendsOut where
  period : String
  trends : List TrendEntry
  periods_analyzed : Nat
  total_executions : Nat
  overall_pass_rate : Rat
deriving DecidableEq

/-- An aggregator with no results returns the empty dictionary `{}`
(line 337), a different shape from the populated one. -/
inductive TrendsResult where
  | emptyDict
  | result (out : TrendsOut)
deriving DecidableEq

/-- Embeds `TestAggregator.get_trends_over_time` (lines 329-394). -/
def get_trends_over_time (parse : String → Option Int) (kf : KeyFns)
    (period : String) (results : List TestResult) : TrendsResult :=
  if results.isEmpty then .emptyDict
  else
    let pd := period_data parse kf period results
    let sorted_periods :=
      (pd.map Prod.fst).mergeSort (fun a b => decide (a ≤ b))
    let trends := sorted_periods.map (fun key =>
      let c := ((pd.lookup key).getD ⟨0, 0, 0, 0⟩)
      { period := key, total := c.total, passed := c.passed
        failed := c.failed, skipped := c.skipped
        pass_rate :=
          if c.total > 0 then (c.passed : Rat) / c.total * 100 else 0 })
    let totalExec := (trends.map TrendEntry.total).sum
    .result
      { period := period
        trends := trends
        periods_analyzed := trends.length
        total_executions := totalExec
        overall_pass_rate :=
          if totalExec > 0 then
            ((trends.map TrendEntry.passed).sum : Rat) / totalExec * 100
          else 0 }

/-! ## test_aggregator.py : JUnit XML status normalization -/

/-- Status names produced by `_load_from_xml`. -/
inductive XmlStatus where
  | passed
  | failed
  | error
  | skipped
deriving DecidableEq

/-- Embeds the status normalization of `TestAggregator._load_from_xml`
(lines 173-191): start from PASSED; a `failure` child sets FAILED, otherwise
an `error` child sets ERROR; a `skipped` child is checked last and
overwrites whatever was set before. -/
def xml_testcase_status (hasFailure hasError hasSkipped : Bool) : XmlStatus :=
  let s := XmlStatus.passed
  let s := if hasFailure then XmlStatus.failed
    else if hasError then XmlStatus.error else s
  let s := if hasSkipped then XmlStatus.skipped else s
  s

/-! ## notification_system.py -/

/-- The `NotificationChannel` enum (lines 31-37). -/
inductive NotificationChannel where
  | email
  | slack
  | teams
  | webhook
  | console
  | file
deriving DecidableEq

/-- The `NotificationPriority` enum (lines 24-28). -/
inductive NotificationPriority where
  | low
  | medium
  | high
  | critical
deriving DecidableEq

/-- The `NotificationRule` dataclass (lines 40-49).  Trigger conditions map
condition names to numeric thresholds (every rule in the program uses
numeric thresholds only). -/
structure NotificationRule where
  name : String
  channel : NotificationChannel
  priority_threshold : NotificationPriority
  trigger_conditions : List (String × Rat)
  template : String
  enabled : Bool
  rate_limit_minutes : Int
deriving DecidableEq

/-- A plain test-result dictionary as consumed by the notification system,
metrics and analytics modules.  `d.get(k)` is the field itself and
`d.get(k, v)` is `field.getD v`; keys the embedded code never reads are
omitted. -/
structure RDict where
  name : Option String
  suite : Option String
  category : Option String
  status : Option String
  duration : Option Rat
  timestamp : Option String
  message : Option String
  error_details : Option String
  priority : Option String
  test_type : Option String
deriving DecidableEq

/-- An `RDict` with every key absent. -/
def RDict.empty : RDict :=
  ⟨none, none, none, none, none, none, none, none, none, none⟩

/-- Embeds `NotificationSystem._calculate_summary` (lines 234-258).  `now`
models the `datetime.now().isoformat()` timestamp entry. -/
structure NotifSummary where
  total : Nat
  passed : Nat
  failed : Nat
  skipped : Nat
  pass_rate : Rat
  total_duration : Rat
  failure_rate : Rat
  failed_tests : List RDict
  slow_tests : List RDict
  timestamp : Int
deriving DecidableEq

/-- Embeds `NotificationSystem._calculate_summary` (lines 234-258). -/
def calculate_summary (now : Int) (test_results : List RDict) : NotifSummary :=
  let total := test_results.length
  let passed := test_results.countP (fun r => r.status == some "PASSED")
  let failed := test_results.countP (fun r => r.status == some "FAILED")
  { total := total
    passed := passed
    failed := failed
    skipped := test_results.countP (fun r => r.status == some "SKIPPED")
    pass_rate := if total > 0 then (passed : Rat) / total * 100 else 0
    total_duration := (test_results.map (fun r => r.duration.getD 0)).sum
    failure_rate := if total > 0 then (failed : Rat) / total * 100 else 0
    failed_tests := test_results.filter (fun r => r.status == some "FAILED")
    slow_tests := test_results.filter (fun r => decide (r.duration.getD 0 > 20))
    timestamp := now }

/-- Models `summary.get(condition)` in `_check_trigger_conditions`
(line 293) for the numeric summary entries.  The three non-numeric entries
(`failed_tests`, `slow_tests`, `timestamp`) are not modelled: comparing them
against a numeric threshold would raise `TypeError`, and no rule in the
program (nor in any claim) names them. -/
def summaryGetNum (s : NotifSummary) : String → Option Rat
  | "total" => some s.total
  | "passed" => some s.passed
  | "failed" => some s.failed
  | "skipped" => some s.skipped
  | "pass_rate" => some s.pass_rate
  | "total_duration" => some s.total_duration
  | "failure_rate" => some s.failure_rate
  | _ => none

/-- Embeds `NotificationSystem._check_trigger_conditions` (lines 290-308):
a condition whose name is not a summary key yields `actual_value is None`
and is skipped (`continue`); a `_threshold` suffix or `min_` prefix fails
the rule when the actual value is below the threshold, a `max_` prefix
fails it when above; any other named condition is ignored; the function
returns `True` when no condition failed. -/
def check_trigger_conditions (s : NotifSummary) :
    List (String × Rat) → Bool
  | [] => true
  | (condition, threshold) :: rest =>
    match summaryGetNum s condition with
    | none => check_trigger_conditions s rest
    | some actual =>
      if pyEndsWith condition "_threshold" then
        if actual < threshold then false else check_trigger_conditions s rest
      else if pyStartsWith condition "min_" then
        if actual < threshold then false else check_trigger_conditions s rest
      else if pyStartsWith condition "max_" then
        if actual > threshold then false else check_trigger_conditions s rest
      else check_trigger_conditions s rest

/-- Embeds `NotificationSystem._priority_exceeds_threshold`
(lines 276-288). -/
def priority_exceeds_threshold (s : NotifSummary)
    (threshold : NotificationPriority) : Bool :=
  match threshold with
  | .critical => decide (s.failure_rate > 30) || decide (s.pass_rate < 50)
  | .high => decide (s.failure_rate > 20) || decide (s.pass_rate < 70)
  | .medium => decide (s.failure_rate > 10) || decide (s.pass_rate < 85)
  | .low => decide (s.failure_rate > 5) || decide (s.pass_rate < 95)

/-- Embeds `NotificationSystem._evaluate_rules` (lines 260-274): keep the
enabled rules whose priority threshold and trigger conditions both hold
(the source builds the list by appending inside a loop, which is the same
filter). -/
def evaluate_rules (rules : List NotificationRule) (s : NotifSummary) :
    List NotificationRule :=
  rules.filter (fun rule =>
    rule.enabled && priority_exceeds_threshold s rule.priority_threshold
      && check_trigger_conditions s rule.trigger_conditions)

/-- The `NotificationResult` dataclass (lines 52-59); `message` is `Option`
because on failure the source stores the error value of the transport, which can
be `None`. -/
structure NotificationResult where
  success : Bool
  channel : NotificationChannel
  message : Option String
  timestamp : Int
  error_details : Option String
deriving DecidableEq

/-- Mutable state of a `NotificationSystem` instance: its rules, the sent
history, and the per-rule-name last-sent map (lines 151-155). -/
structure NotifState where
  rules : List NotificationRule
  notification_history : List NotificationResult
  last_notification_times : List (String × Int)
deriving DecidableEq

/-- Embeds `NotificationSystem._should_send_notification` (lines 310-322):
rate limiting per rule name; `rate_limit_minutes` is compared in minutes,
and the model keeps the time line in minutes here, matching the
`timedelta(minutes=...)` comparison against `now - last_sent`. -/
def should_send_notification (st : NotifState) (now : Int)
    (rule : NotificationRule) : Bool :=
  match st.last_notification_times.lookup rule.name with
  | none => true
  | some last_sent => decide (now - last_sent ≥ rule.rate_limit_minutes)

/-- Embeds `NotificationSystem._send_notification` (lines 324-362).
`genMessage` models `_generate_message` (the template/string-formatting
layer); `send` models the per-channel transport
(`_send_email`, `_send_slack`, ..., each returning `(success, error)`). -/
def send_notification (send : NotificationChannel → String → Bool × Option String)
    (genMessage : String → NotifSummary → List RDict → String) (now : Int)
    (rule : NotificationRule) (summary : NotifSummary)
    (test_results : List RDict) : NotificationResult :=
  let msg := genMessage rule.template summary test_results
  let res := send rule.channel msg
  { success := res.1
    channel := rule.channel
    message := if res.1 then some "Notification sent successfully" else res.2
    timestamp := now
    error_details := if res.1 then none else res.2 }

/-- Embeds `NotificationSystem._record_notification` (lines 517-519):
stamp the rule name with the current time. -/
def record_notification (st : NotifState) (now : Int) (rule_name : String) :
    NotifState :=
  { st with last_notification_times :=
      (rule_name, now) ::
        st.last_notification_times.filter (fun p => p.1 ≠ rule_name) }

/-- Embeds `NotificationSystem.send_test_results_notification`
(lines 200-232).  Besides the returned result list and the state after the
call, the model emits the list of transport invocations (channel and
message) so that absence of delivery attempts is observable.  Note the
source computes `rules_to_evaluate = custom_rules or self.rules` but then
evaluates `self.rules` regardless; the model reproduces that. -/
def send_test_results_notification
    (send : NotificationChannel → String → Bool × Option String)
    (genMessage : String → NotifSummary → List RDict → String) (now : Int)
    (st : NotifState) (test_results : List RDict)
    (custom_rules : Option (List NotificationRule)) :
    List NotificationResult × NotifState ×
      List (NotificationChannel × String) :=
  if test_results.isEmpty then ([], st, [])
  else
    let summary := calculate_summary now test_results
    let _rules_to_evaluate := custom_rules.getD st.rules
    let applicable_rules := evaluate_rules st.rules summary
    applicable_rules.foldl
      (fun acc rule =>
        let results := acc.1
        let s := acc.2.1
        let attempts := acc.2.2
        if should_send_notification s now rule then
          let result := send_notification send genMessage now rule summary
            test_results
          let attempts := attempts ++
            [(rule.channel, genMessage rule.template summary test_results)]
          let s := if result.success then record_notification s now rule.name
            else s
          (results ++ [result], s, attempts)
        else acc)
      ([], st, [])

/-! ## metrics.py and analytics.py : shared helpers -/

/-- Result shape of the metric/analytics entry points: a dictionary keyed
`error`, a dictionary keyed `message`, or the populated payload. -/
inductive DictResult (α : Type) where
  | withError (msg : String)
  | withMessage (msg : String)
  | ok (payload : α)
deriving DecidableEq

/-- The `r.get(duration, 0)` durations of a record list. -/
def getDurations (rs : List RDict) : List Rat :=
  rs.map (fun r => r.duration.getD 0)

/-- Number of records whose `status` is exactly `s`. -/
def countStatus (rs : List RDict) (s : String) : Nat :=
  rs.countP (fun r => r.status == some s)

/-- Number of records whose `status` entry is FAILED or ERROR. -/
def countFailedOrError (rs : List RDict) : Nat :=
  rs.countP (fun r => r.status == some "FAILED" || r.status == some "ERROR")

/-- Models `statistics.mean`, which raises `StatisticsError` on an empty
sequence (the error text is the CPython one). -/
def pyMean : List Rat → Except String Rat
  | [] => .error "mean requires at least one data point"
  | l => .ok (l.sum / l.length)

/-- Models Python `min` at the call sites, all of which guard against the
empty list. -/
def pyMin : List Rat → Rat
  | [] => 0
  | x :: xs => xs.foldl min x

/-- Models Python `max` at the call sites, all of which guard against the
empty list. -/
def pyMax : List Rat → Rat
  | [] => 0
  | x :: xs => xs.foldl max x

/-- Models `statistics.median`: middle element of the sorted list, or the
average of the two middle elements for even length. -/
def pyMedian (l : List Rat) : Rat :=
  let s := l.mergeSort (fun a b => decide (a ≤ b))
  let n := s.length
  if n % 2 = 1 then s.getD (n / 2) 0
  else (s.getD (n / 2 - 1) 0 + s.getD (n / 2) 0) / 2

/-! ## metrics.py : MetricsCalculator

Every public `calculate_*` method starts with
a guard returning the dictionary {error: No test results available}.
The payload structures below embed the directly numeric fields of the
success dictionaries; presentation rounding (`round(x, 2)`) and the fields
built from wall-clock bucketing or floating square roots
(`execution_timeline`, `execution_efficiency`, `std_dev`, ...) are omitted
from the payloads — no claim refers to them. -/

/-- Numeric core of `calculate_execution_metrics` (lines 38-78). -/
structure ExecutionMetrics where
  total_tests : Nat
  passed_tests : Nat
  failed_tests : Nat
  skipped_tests : Nat
  error_tests : Nat
  pass_rate : Rat
  failure_rate : Rat
  skip_rate : Rat
  error_rate : Rat
  total_duration : Rat
  avg_duration : Rat
deriving DecidableEq

/-- Embeds `MetricsCalculator.calculate_execution_metrics` (lines 38-78). -/
def calculate_execution_metrics (rs : List RDict) :
    DictResult ExecutionMetrics :=
  if rs.isEmpty then .withError "No test results available"
  else
    let total := rs.length
    let durations := getDurations rs
    .ok
      { total_tests := total
        passed_tests := countStatus rs "PASSED"
        failed_tests := countStatus rs "FAILED"
        skipped_tests := countStatus rs "SKIPPED"
        error_tests := countStatus rs "ERROR"
        pass_rate :=
          if total > 0 then (countStatus rs "PASSED" : Rat) / total * 100 else 0
        failure_rate :=
          if total > 0 then (countStatus rs "FAILED" : Rat) / total * 100 else 0
        skip_rate :=
          if total > 0 then (countStatus rs "SKIPPED" : Rat) / total * 100
          else 0
        error_rate :=
          if total > 0 then (countStatus rs "ERROR" : Rat) / total * 100 else 0
        total_duration := durations.sum
        avg_duration := if durations.isEmpty then 0
          else durations.sum / durations.length }

/-- Numeric core of `calculate_quality_metrics` (lines 80-112):
`_calculate_reliability_score`, `_calculate_effectiveness_score` and
`_calculate_test_stability` inlined. -/
structure QualityMetrics where
  reliability_score : Rat
  effectiveness_score : Rat
  test_stability : Rat
deriving DecidableEq

/-- Embeds `MetricsCalculator.calculate_quality_metrics` (lines 80-112) with
the scores of lines 306-321, 346-367 and 476-488; the by-dimension
breakdowns, defect keyword categorization and maintainability blend are
omitted from the payload. -/
def calculate_quality_metrics (rs : List RDict) : DictResult QualityMetrics :=
  if rs.isEmpty then .withError "No test results available"
  else
    let total := rs.length
    let passed := countStatus rs "PASSED"
    let base_score := if total > 0 then (passed : Rat) / total * 100 else 0
    let failure_rate := (countStatus rs "FAILED" : Rat) / total
    .ok
      { reliability_score := min 100 (base_score + 5)
        effectiveness_score :=
          if 1 / 20 ≤ failure_rate ∧ failure_rate ≤ 3 / 20 then 100
          else if failure_rate < 1 / 20 then
            70 + failure_rate / (1 / 20) * 30
          else max 0 (100 - (failure_rate - 3 / 20) * 200)
        test_stability :=
          ((total - countFailedOrError rs : Nat) : Rat) / total * 100 }

/-- Fixed-width duration histogram of `_analyze_performance_distribution`
(lines 490-518); the elif chain assigns each duration to exactly one
bucket. -/
structure DurationBuckets where
  b0_1 : Nat
  b1_5 : Nat
  b5_10 : Nat
  b10_30 : Nat
  b30_60 : Nat
  b60plus : Nat
deriving DecidableEq

/-- Embeds `_analyze_performance_distribution` (lines 490-518). -/
def analyze_performance_distribution (durations : List Rat) :
    DurationBuckets :=
  { b0_1 := durations.countP (fun d => decide (d ≤ 1))
    b1_5 := durations.countP (fun d => decide (1 < d) && decide (d ≤ 5))
    b5_10 := durations.countP (fun d => decide (5 < d) && decide (d ≤ 10))
    b10_30 := durations.countP (fun d => decide (10 < d) && decide (d ≤ 30))
    b30_60 := durations.countP (fun d => decide (30 < d) && decide (d ≤ 60))
    b60plus := durations.countP (fun d => decide (60 < d)) }

/-- Numeric core of `calculate_performance_metrics` (lines 114-150). -/
structure PerformanceMetrics where
  duration_min : Rat
  duration_max : Rat
  duration_mean : Rat
  duration_median : Rat
  performance_distribution : DurationBuckets
deriving DecidableEq

/-- Embeds `MetricsCalculator.calculate_performance_metrics`
(lines 114-150); `std_dev`/`variance` (floating square root), outliers and
static trend text are omitted from the payload. -/
def calculate_performance_metrics (rs : List RDict) :
    DictResult PerformanceMetrics :=
  if rs.isEmpty then .withError "No test results available"
  else
    let durations := getDurations rs
    .ok
      { duration_min := if durations.isEmpty then 0 else pyMin durations
        duration_max := if durations.isEmpty then 0 else pyMax durations
        duration_mean := if durations.isEmpty then 0
          else durations.sum / durations.length
        duration_median := if durations.isEmpty then 0 else pyMedian durations
        performance_distribution := analyze_performance_distribution durations }

/-- Numeric core of `calculate_coverage_metrics` (lines 152-181). -/
structure CoverageMetrics where
  coverage_by_category : String → Nat
  coverage_by_suite : String → Nat
  coverage_by_priority : String → Nat
  coverage_by_type : String → Nat
  overall_coverage_score : Rat

/-- Embeds `MetricsCalculator.calculate_coverage_metrics` (lines 152-181)
with `_analyze_coverage_by_dimension` (line 604-606) and
`_calculate_overall_coverage_score` (lines 674-688); the gap heuristics and
keyword-based feature coverage are omitted from the payload. -/
def calculate_coverage_metrics (rs : List RDict) : DictResult CoverageMetrics :=
  if rs.isEmpty then .withError "No test results available"
  else
    let categories := (rs.map (fun r => r.category.getD "")).eraseDups
    let priorities := (rs.map (fun r => r.priority.getD "medium")).eraseDups
    let types := (rs.map (fun r => r.test_type.getD "functional")).eraseDups
    let diversity_score : Rat :=
      min 100 (((categories.length + priorities.length + types.length) * 10
        : Nat) : Rat)
    let organization_score : Rat := min 100 ((rs.length : Rat) * (1 / 2))
    .ok
      { coverage_by_category :=
          fun s => rs.countP (fun r => r.category.getD "Unknown" == s)
        coverage_by_suite :=
          fun s => rs.countP (fun r => r.suite.getD "Unknown" == s)
        coverage_by_priority :=
          fun s => rs.countP (fun r => r.priority.getD "Unknown" == s)
        coverage_by_type :=
          fun s => rs.countP (fun r => r.test_type.getD "Unknown" == s)
        overall_coverage_score := (diversity_score + organization_score) / 2 }

/-- Numeric core of `calculate_trend_metrics` (lines 183-213). -/
structure TrendMetrics where
  current_pass_rate : Rat
  current_stability : Rat
deriving DecidableEq

/-- Embeds `MetricsCalculator.calculate_trend_metrics` (lines 183-213) with
`_analyze_pass_rate_trend` (758-769) and `_analyze_stability_trend`
(782-792); the hour/day/week bucketings (wall-clock) and the constant
predictive/seasonal texts are omitted from the payload. -/
def calculate_trend_metrics (rs : List RDict) : DictResult TrendMetrics :=
  if rs.isEmpty then .withError "No test results available"
  else
    let total := rs.length
    .ok
      { current_pass_rate :=
          if total > 0 then (countStatus rs "PASSED" : Rat) / total * 100
          else 0
        current_stability :=
          if total > 0 then
            ((total - countFailedOrError rs : Nat) : Rat) / total * 100
          else 0 }

/-- Numeric core of `calculate_comparative_metrics` (lines 215-238). -/
structure ComparativeMetrics where
  rating : String
  gap_to_excellent : Rat
deriving DecidableEq

/-- The unrounded pass rate used by the comparison helpers via
`calculate_execution_metrics().get(pass_rate, 0)`. -/
def metricsPassRate (rs : List RDict) : Rat :=
  if rs.length > 0 then (countStatus rs "PASSED" : Rat) / rs.length * 100
  else 0

/-- Embeds `MetricsCalculator.calculate_comparative_metrics`
(lines 215-238) with `_compare_to_industry_benchmarks` (826-849); the
payload keeps the benchmark rating and gap (the pass rate enters unrounded
here, see the section comment), the placeholder historical/environment
dictionaries are omitted. -/
def calculate_comparative_metrics (rs : List RDict) :
    DictResult ComparativeMetrics :=
  if rs.isEmpty then .withError "No test results available"
  else
    let current_pass_rate := metricsPassRate rs
    .ok
      { rating :=
          if current_pass_rate ≥ 95 then "excellent"
          else if current_pass_rate ≥ 85 then "good"
          else if current_pass_rate ≥ 75 then "acceptable"
          else "needs_improvement"
        gap_to_excellent := max 0 (95 - current_pass_rate) }

/-- Numeric core of `calculate_kpi_summary` (lines 240-270). -/
structure KpiSummary where
  test_pass_rate : Rat
  test_reliability : Rat
deriving DecidableEq

/-- Embeds `MetricsCalculator.calculate_kpi_summary` (lines 240-270); the
payload keeps the two KPIs that are plain rational functions of the input
(pass rate and reliability); the weighted health score and recommendation
texts are omitted. -/
def calculate_kpi_summary (rs : List RDict) : DictResult KpiSummary :=
  if rs.isEmpty then .withError "No test results available"
  else
    .ok
      { test_pass_rate := metricsPassRate rs
        test_reliability := min 100 (metricsPassRate rs + 5) }

/-! ## analytics.py : AnalyticsEngine

The `fmt` parameters below model Python format specifications such as
`{x:.1f}`, which render a float into decimal text; no claim depends on the
rendering. -/

/-- Numeric core of `analyze_performance` (lines 28-51). -/
structure PerformanceAnalysis where
  duration_min : Rat
  duration_max : Rat
  duration_avg : Rat
  duration_median : Rat
  duration_total : Rat
  performance_distribution : DurationBuckets
deriving DecidableEq

/-- Embeds `AnalyticsEngine.analyze_performance` (lines 28-51) together
with `_analyze_duration_distribution` (157-190); `std_dev` (floating square
root), the slowest/fastest projections and the moving-average trend are
omitted from the payload. -/
def analyze_performance (rs : List RDict) : DictResult PerformanceAnalysis :=
  if rs.isEmpty then .withError "No test results available"
  else
    let durations := getDurations rs
    .ok
      { duration_min := if durations.isEmpty then 0 else pyMin durations
        duration_max := if durations.isEmpty then 0 else pyMax durations
        duration_avg := if durations.isEmpty then 0
          else durations.sum / durations.length
        duration_median := if durations.isEmpty then 0 else pyMedian durations
        duration_total := durations.sum
        performance_distribution := analyze_performance_distribution durations }

/-- Numeric core of `analyze_failure_patterns` (lines 53-71). -/
structure FailureAnalysis where
  total_failures : Nat
  failure_rate : Rat
  failure_by_suite : String → Nat
  failure_by_category : String → Nat

/-- Embeds `AnalyticsEngine.analyze_failure_patterns` (lines 53-71): the
guard is on the FAILED subset, not on the record set, and its sentinel is a
`message` dictionary, not an `error` one.  The keyword/regex extractions,
recurrence list and timeline are omitted from the payload. -/
def analyze_failure_patterns (rs : List RDict) : DictResult FailureAnalysis :=
  let failed_tests := rs.filter (fun r => r.status == some "FAILED")
  if failed_tests.isEmpty then .withMessage "No failed tests to analyze"
  else
    .ok
      { total_failures := failed_tests.length
        failure_rate := (failed_tests.length : Rat) / rs.length * 100
        failure_by_suite :=
          fun s => failed_tests.countP (fun r => r.suite.getD "Unknown" == s)
        failure_by_category :=
          fun s =>
            failed_tests.countP (fun r => r.category.getD "Unknown" == s) }

/-- Numeric core of `analyze_test_quality` (lines 73-93). -/
structure QualityAnalysis where
  overall_quality_score : Rat
  reliability_score : Rat
  test_effectiveness : Rat
deriving DecidableEq

/-- Embeds `AnalyticsEngine.analyze_test_quality` (lines 73-93) with
`_calculate_quality_score` (337-351), `_calculate_reliability_score`
(353-363) and `_calculate_test_effectiveness` (365-389); the by-category
breakdown, daily trend, recommendation texts and coverage block are
omitted from the payload. -/
def analyze_test_quality (rs : List RDict) : DictResult QualityAnalysis :=
  if rs.isEmpty then .withError "No test results available"
  else
    let total := rs.length
    let passed := countStatus rs "PASSED"
    let failure_rate := (countStatus rs "FAILED" : Rat) / total
    .ok
      { overall_quality_score := min 100 ((passed : Rat) / total * 100 + 5)
        reliability_score :=
          if total > 0 then (passed : Rat) / total * 100 else 0
        test_effectiveness :=
          min 100
            (if 1 / 20 ≤ failure_rate ∧ failure_rate ≤ 3 / 20 then 100
             else if failure_rate < 1 / 20 then
               70 + failure_rate / (1 / 20) * 30
             else max 0 (100 - (failure_rate - 3 / 20) * 200)) }

/-- Embeds `AnalyticsEngine._filter_by_time_period` (lines 519-546): a
record passes only when its timestamp key is a non-empty string that
parses and is at least the cutoff; an unrecognized period keeps
everything. -/
def filter_by_time_period (parse : String → Option Int) (now : Int)
    (time_period : String) (rs : List RDict) : List RDict :=
  if rs.isEmpty then []
  else
    let cutoff : Option Int :=
      if time_period = "1d" then some (now - 86400)
      else if time_period = "7d" then some (now - 7 * 86400)
      else if time_period = "30d" then some (now - 30 * 86400)
      else none
    match cutoff with
    | none => rs
    | some c =>
      rs.filter (fun r =>
        let ts := r.timestamp.getD ""
        if ts = "" then false
        else
          match parseResultTime parse ts with
          | none => false
          | some t => decide (c ≤ t))

/-- Numeric core of `analyze_trends` (lines 95-116). -/
structure TrendAnalysis where
  period : String
  total_executions : Nat
  current_pass_rate : Rat
deriving DecidableEq

/-- Embeds `AnalyticsEngine.analyze_trends` (lines 95-116) with
`_analyze_pass_rate_trend` (548-560); note its empty-input sentinel string
differs from the other entry points, and a non-empty record set whose
records all fall outside the window yields a `message` dictionary.  The
performance/stability/improvement sub-analyses are omitted from the
payload. -/
def analyze_trends (parse : String → Option Int) (now : Int)
    (time_period : String) (rs : List RDict) : DictResult TrendAnalysis :=
  if rs.isEmpty then .withError "No test results available for trend analysis"
  else
    let filtered := filter_by_time_period parse now time_period rs
    if filtered.isEmpty then .withMessage "No results in specified time period"
    else
      .ok
        { period := time_period
          total_executions := filtered.length
          current_pass_rate :=
            if filtered.length > 0 then
              (countStatus filtered "PASSED" : Rat) / filtered.length * 100
            else 0 }

/-- Embeds `AnalyticsEngine._generate_key_findings` (lines 623-657);
group-by-suite follows dict insertion order (first occurrence), and the
final `if worst_suite and ...` test uses Python truthiness, under which the
empty suite name is falsy. -/
def generate_key_findings (fmt : Rat → String) (rs : List RDict) :
    List String :=
  if rs.isEmpty then ["No test results available for analysis"]
  else
    let total := rs.length
    let passed := countStatus rs "PASSED"
    let pass_rate := if total > 0 then (passed : Rat) / total * 100 else 0
    let f1 := ["Overall pass rate: " ++ fmt pass_rate ++ "%"]
    let f2 :=
      if pass_rate < 80 then ["Test quality needs improvement"]
      else if pass_rate > 95 then ["Test quality is excellent"]
      else []
    let suites := (rs.map (fun r => r.suite.getD "Unknown")).eraseDups
    let worst := suites.foldl
      (fun acc s =>
        let grp := rs.filter (fun r => r.suite.getD "Unknown" == s)
        let rate := (grp.countP (fun r => r.status == some "PASSED") : Rat) /
          grp.length * 100
        if rate < acc.2 then (some s, rate) else acc)
      ((none : Option String), (100 : Rat))
    let f3 :=
      match worst.1 with
      | some s =>
        if s ≠ "" ∧ worst.2 < 80 then
          ["\x27" ++ s ++ "\x27 suite has lowest pass rate (" ++ fmt worst.2
            ++ "%)"]
        else []
      | none => []
    f1 ++ f2 ++ f3

/-- Embeds `AnalyticsEngine._identify_critical_issues` (lines 660-683). -/
def identify_critical_issues (rs : List RDict) : List String :=
  let total := rs.length
  let failed := countFailedOrError rs
  let i1 :=
    if total > 0 ∧ (failed : Rat) / total > 3 / 10 then
      ["High failure rate: " ++ toString failed ++ "/" ++ toString total
        ++ " tests failed"]
    else []
  let slow := rs.filter (fun r => decide (r.duration.getD 0 > 60))
  let i2 :=
    if ¬slow.isEmpty then
      ["Found " ++ toString slow.length
        ++ " tests taking longer than 60 seconds"]
    else []
  let names := rs.map (fun r => r.name.getD "")
  let flaky := names.eraseDups.filter (fun n => names.count n > 1)
  let i3 :=
    if ¬flaky.isEmpty then
      ["Detected " ++ toString flaky.length ++ " potentially flaky tests"]
    else []
  i1 ++ i2 ++ i3

/-- Embeds `AnalyticsEngine._identify_optimization_opportunities`
(lines 685-703).  There is no empty guard: `statistics.mean` of the empty
duration list raises `StatisticsError`. -/
def identify_optimization_opportunities (fmt : Rat → String)
    (rs : List RDict) : Except String (List String) := do
  let avg_duration ← pyMean (getDurations rs)
  let o1 :=
    if avg_duration > 10 then
      ["Average test duration is " ++ fmt avg_duration
        ++ "s - consider optimization"]
    else []
  let categories := (rs.map (fun r => r.category.getD "Unknown")).eraseDups
  let o2 :=
    if categories.length > 10 then
      ["Large number of test categories - consider reorganization"]
    else []
  let o3 :=
    if rs.length > 50 then ["Large test suite - consider parallel execution"]
    else []
  pure (o1 ++ o2 ++ o3)

/-- The risk dictionary of `_assess_risks` (lines 705-739). -/
structure RiskAssessment where
  overall : String
  performance : String
  quality : String
  stability : String
deriving DecidableEq

/-- Embeds `AnalyticsEngine._assess_risks` (lines 705-739). -/
def assess_risks (rs : List RDict) : RiskAssessment :=
  if rs.isEmpty then
    { overall := "unknown", performance := "low", quality := "low"
      stability := "low" }
  else
    let total := rs.length
    let failed := countFailedOrError rs
    let failure_rate := if total > 0 then (failed : Rat) / total else 0
    let avg_duration := (getDurations rs).sum / (getDurations rs).length
    { overall :=
        if failure_rate > 3 / 10 then "high"
        else if failure_rate > 1 / 10 then "medium" else "low"
      quality :=
        if failure_rate > 3 / 10 then "high"
        else if failure_rate > 1 / 10 then "medium" else "low"
      performance :=
        if avg_duration > 30 then "high"
        else if avg_duration > 10 then "medium" else "low"
      stability :=
        if failure_rate > 1 / 5 then "high"
        else if failure_rate > 1 / 10 then "medium" else "low" }

/-- One entry of `_generate_action_items` (lines 741-775). -/
structure ActionItem where
  priority : String
  action : String
  category : String
  details : Option String
deriving DecidableEq

/-- Embeds `AnalyticsEngine._generate_action_items` (lines 741-775). -/
def generate_action_items (rs : List RDict) : List ActionItem :=
  if rs.isEmpty then
    [{ priority := "high", action := "Run tests to get baseline metrics"
       category := "setup", details := none }]
  else
    let failed := rs.filter
      (fun r => r.status == some "FAILED" || r.status == some "ERROR")
    let slow := rs.filter (fun r => decide (r.duration.getD 0 > 20))
    let a1 :=
      if ¬failed.isEmpty then
        [{ priority := "high"
           action := "Fix " ++ toString failed.length ++ " failing tests"
           category := "quality"
           details := some "Address failed tests to improve pass rate" }]
      else []
    let a2 :=
      if ¬slow.isEmpty then
        [{ priority := "medium"
           action := "Optimize " ++ toString slow.length ++ " slow tests"
           category := "performance"
           details := some "Reduce execution time for slow tests" }]
      else []
    a1 ++ a2 ++
      [{ priority := "low"
         action := "Review and update test documentation"
         category := "maintenance"
         details := some "Keep test documentation current and accurate" }]

/-- Embeds `AnalyticsEngine._generate_executive_summary` (lines 777-795);
the text of the triple-quoted literal is kept, its indentation whitespace
condensed. -/
def generate_executive_summary (fmt : Rat → String) (rs : List RDict) :
    String :=
  if rs.isEmpty then "No test results available for analysis."
  else
    let total := rs.length
    let passed := countStatus rs "PASSED"
    let pass_rate := if total > 0 then (passed : Rat) / total * 100 else 0
    let avg_duration := (getDurations rs).sum / (getDurations rs).length
    "Test Execution Summary:\n- Total Tests: " ++ toString total
      ++ "\n- Pass Rate: " ++ fmt pass_rate ++ "%\n- Average Duration: "
      ++ fmt avg_duration ++ "s\nQuality Assessment: "
      ++ (if pass_rate > 90 then "Good"
          else if pass_rate > 70 then "Needs Improvement" else "Poor")
      ++ "\nPerformance: "
      ++ (if avg_duration < 5 then "Good"
          else if avg_duration < 15 then "Needs Optimization" else "Poor")

/-- The dictionary built by `generate_insights` (lines 118-129). -/
structure Insights where
  key_findings : List String
  critical_issues : List String
  optimization_opportunities : List String
  risk_assessment : RiskAssessment
  action_items : List ActionItem
  executive_summary : String
deriving DecidableEq

/-- Embeds `AnalyticsEngine.generate_insights` (lines 118-129).  The method
has no empty-input guard: the dictionary entries are evaluated in order,
and `_identify_optimization_opportunities` raises `StatisticsError` on an
empty record set, which propagates to the caller. -/
def generate_insights (fmt : Rat → String) (rs : List RDict) :
    Except String Insights := do
  let kf := generate_key_findings fmt rs
  let ci := identify_critical_issues rs
  let oo ← identify_optimization_opportunities fmt rs
  pure
    { key_findings := kf
      critical_issues := ci
      optimization_opportunities := oo
      risk_assessment := assess_risks rs
      action_items := generate_action_items rs
      executive_summary := generate_executive_summary fmt rs }

/-! ## Concrete sample inputs used by witnesses and counterexamples -/

/-- A single PASSED aggregator record. -/
def sampleResult : TestResult :=
  ⟨"t1", "t1", "suite1", "cat1", "PASSED", 1, "2024-01-01T00:00:00", "", "",
    [], "medium", "", "", "functional", 0⟩

/-- An aggregator record whose status is lower-case `passed`. -/
def lowerPassedResult : TestResult :=
  ⟨"t2", "t2", "suite1", "cat1", "passed", 1, "2024-01-01T00:00:00", "", "",
    [], "medium", "", "", "functional", 0⟩

/-- An aggregator record with an unparsable timestamp. -/
def unparseableResult : TestResult :=
  ⟨"u1", "u1", "suite1", "cat1", "FAILED", 2, "not-a-timestamp", "", "",
    [], "medium", "", "", "functional", 0⟩

/-- Concrete strftime key functions for witnesses. -/
def kf0 : KeyFns := ⟨fun _ => "h", fun _ => "d", fun _ => "w"⟩

/-- A rule carrying the trigger map {min_failures: 3} of the claim
scenario (the shape of the default Critical Failures rule of
`_load_default_config`, lines 163-172). -/
def minFailuresRule : NotificationRule :=
  { name := "Critical Failures"
    channel := .email
    priority_threshold := .high
    trigger_conditions := [("min_failures", 3)]
    template := "failure_alert"
    enabled := true
    rate_limit_minutes := 60 }

/-- Two FAILED result dictionaries: the summary computed from them has
`failed = 2`. -/
def twoFailedResults : List RDict :=
  [{ RDict.empty with status := some "FAILED" },
   { RDict.empty with status := some "FAILED" }]

/-! ## Claim theorems -/

/-- C2: the normalized status of a JUnit XML testcase follows the precedence in
which a `skipped` child always wins (it is checked last and overwrites),
then `failure`, then `error` (checked only when no failure child exists),
with PASSED as the default; in particular both `error` and `skipped`
children yield SKIPPED. -/
theorem xml_status_precedence :
    (∀ hasFailure hasError hasSkipped,
      xml_testcase_status hasFailure hasError hasSkipped =
        if hasSkipped then .skipped
        else if hasFailure then .failed
        else if hasError then .error
        else .passed) ∧
    xml_testcase_status false true true = .skipped := by
  refine ⟨fun f e s => ?_, rfl⟩
  cases f <;> cases e <;> cases s <;> rfl

/-- C10: sending notifications for an empty result list returns the empty
list, leaves the notifier state (rules, history, rate-limit map) exactly as
it was, and invokes no channel transport (the third component is the
transport-invocation trace). -/
theorem send_test_results_notification_empty
    (send : NotificationChannel → String → Bool × Option String)
    (genMessage : String → NotifSummary → List RDict → String) (now : Int)
    (st : NotifState) (custom_rules : Option (List NotificationRule)) :
    send_test_results_notification send genMessage now st [] custom_rules =
      ([], st, []) := rfl

/-- C6 counterexample: on the empty record set, `analyze_failure_patterns`
returns the dictionary {message: No failed tests to analyze}, not the
sentinel {error: No test results available}, and `generate_insights`
raises `StatisticsError` instead of returning any sentinel. -/
theorem empty_input_sentinel_counterexample :
    analyze_failure_patterns [] =
      DictResult.withMessage "No failed tests to analyze" ∧
    analyze_failure_patterns [] ≠
      DictResult.withError "No test results available" ∧
    generate_insights (fun _ => "") [] =
      Except.error "mean requires at least one data point" := by
  refine ⟨rfl, fun h => ?_, rfl⟩
  rw [show analyze_failure_patterns [] =
    DictResult.withMessage "No failed tests to analyze" from rfl] at h
  exact DictResult.noConfusion h

/-- C6 (amended): on the empty record set none of the metric/analytics
entry points loops or returns garbage: every `calculate_*` function of
metrics.py and `analyze_performance`/`analyze_test_quality` of analytics.py
return {error: No test results available}; `analyze_failure_patterns`
returns {message: No failed tests to analyze}; `analyze_trends`
returns {error: No test results available for trend analysis}; and
`generate_insights` raises `StatisticsError` from `statistics.mean`. -/
theorem empty_input_sentinels :
    calculate_execution_metrics [] = .withError "No test results available" ∧
    calculate_quality_metrics [] = .withError "No test results available" ∧
    calculate_performance_metrics [] = .withError "No test results available" ∧
    calculate_coverage_metrics [] = .withError "No test results available" ∧
    calculate_trend_metrics [] = .withError "No test results available" ∧
    calculate_comparative_metrics [] = .withError "No test results available" ∧
    calculate_kpi_summary [] = .withError "No test results available" ∧
    analyze_performance [] = .withError "No test results available" ∧
    analyze_test_quality [] = .withError "No test results available" ∧
    analyze_failure_patterns [] = .withMessage "No failed tests to analyze" ∧
    (∀ parse now period, analyze_trends parse now period [] =
      .withError "No test results available for trend analysis") ∧
    (∀ fmt, generate_insights fmt [] =
      Except.error "mean requires at least one data point") :=
  ⟨rfl, rfl, rfl, rfl, rfl, rfl, rfl, rfl, rfl, rfl, fun _ _ _ => rfl,
    fun _ => rfl⟩

/-- C1 (code behavior at the failing input): with the summary computed from
two FAILED results (`failed = 2`), a rule whose trigger map is
{min_failures: 3} nevertheless passes `_check_trigger_conditions`
(`summary.get(min_failures)` is `None`, so the condition is silently
skipped), is selected by `_evaluate_rules`, and one notification is sent —
the rule fires even though `failed = 2 < 3`. -/
theorem min_failures_condition_silently_skipped :
    (calculate_summary 0 twoFailedResults).failed = 2 ∧
    check_trigger_conditions (calculate_summary 0 twoFailedResults)
      [("min_failures", 3)] = true ∧
    evaluate_rules [minFailuresRule] (calculate_summary 0 twoFailedResults) =
      [minFailuresRule] ∧
    (send_test_results_notification (fun _ _ => (true, none))
      (fun _ _ _ => "msg") 0 ⟨[minFailuresRule], [], []⟩ twoFailedResults
      none).1.length = 1 := by
  have hfr : (calculate_summary 0 twoFailedResults).failure_rate = 100 := by
    simp [calculate_summary, twoFailedResults, RDict.empty]
  have hpri : priority_exceeds_threshold (calculate_summary 0 twoFailedResults)
      NotificationPriority.high = true := by
    simp [priority_exceeds_threshold, hfr]
    left
    norm_num
  have heval : evaluate_rules [minFailuresRule]
      (calculate_summary 0 twoFailedResults) = [minFailuresRule] := by
    simp [evaluate_rules, minFailuresRule, hpri]
    rfl
  refine ⟨rfl, rfl, heval, ?_⟩
  simp [send_test_results_notification, twoFailedResults]
  rw [show (calculate_summary 0
    [{ RDict.empty with status := some "FAILED" },
     { RDict.empty with status := some "FAILED" }]) =
    calculate_summary 0 twoFailedResults from rfl, heval]
  rfl

/-! ## Counting lemmas for the summary claims -/

/-- The four status buckets are disjoint, so their counts sum to at most the
list length, with equality exactly when every record falls in one of
them. -/
theorem four_status_count (l : List TestResult) :
    statusCount l "PASSED" + statusCount l "FAILED" + statusCount l "SKIPPED"
        + statusCount l "ERROR" ≤ l.length ∧
    (statusCount l "PASSED" + statusCount l "FAILED" + statusCount l "SKIPPED"
        + statusCount l "ERROR" = l.length ↔
      ∀ r ∈ l, r.status = "PASSED" ∨ r.status = "FAILED" ∨
        r.status = "SKIPPED" ∨ r.status = "ERROR") := by
  induction l with
  | nil => simp [statusCount]
  | cons r t ih =>
    obtain ⟨ih1, ih2⟩ := ih
    simp only [statusCount, List.countP_cons, List.length_cons,
      List.forall_mem_cons, beq_iff_eq] at *
    by_cases h1 : r.status = "PASSED"
    · simp only [h1, if_pos, if_neg, String.reduceEq, if_false, if_true]
      simp
      refine ⟨by omega, ?_, ?_⟩
      · intro he
        exact ih2.mp (by omega)
      · intro hrest
        have := ih2.mpr hrest
        omega
    · by_cases h2 : r.status = "FAILED"
      · simp only [h2, String.reduceEq, if_false, if_true]
        simp
        refine ⟨by omega, fun he => ih2.mp (by omega), ?_⟩
        intro hrest
        have := ih2.mpr hrest
        omega
      · by_cases h3 : r.status = "SKIPPED"
        · simp only [h3, String.reduceEq, if_false, if_true]
          simp
          refine ⟨by omega, fun he => ih2.mp (by omega), ?_⟩
          intro hrest
          have := ih2.mpr hrest
          omega
        · by_cases h4 : r.status = "ERROR"
          · simp only [h4, String.reduceEq, if_false, if_true]
            simp
            refine ⟨by omega, fun he => ih2.mp (by omega), ?_⟩
            intro hrest
            have := ih2.mpr hrest
            omega
          · simp only [h1, h2, h3, h4, if_false, if_neg]
            simp [h1, h2, h3, h4]
            refine ⟨by omega, ?_⟩
            intro he
            omega

/-- C3: in every summary the four bucket counts sum to at most the total,
with equality exactly when the status of every aggregated record is one of
PASSED, FAILED, SKIPPED, ERROR (any other status is counted in the total
but in none of the four buckets). -/
theorem summary_bucket_counts (parse : String → Option Int) (now : Int)
    (source_files : List String) (results : List TestResult) :
    (get_summary parse now source_files results).passed
        + (get_summary parse now source_files results).failed
        + (get_summary parse now source_files results).skipped
        + (get_summary parse now source_files results).errors
      ≤ (get_summary parse now source_files results).total ∧
    ((get_summary parse now source_files results).passed
        + (get_summary parse now source_files results).failed
        + (get_summary parse now source_files results).skipped
        + (get_summary parse now source_files results).errors
      = (get_summary parse now source_files results).total ↔
      ∀ r ∈ results, r.status = "PASSED" ∨ r.status = "FAILED" ∨
        r.status = "SKIPPED" ∨ r.status = "ERROR") := by
  by_cases h : results.isEmpty
  · rw [List.isEmpty_iff] at h
    subst h
    simp [get_summary]
  · simp only [get_summary, h, Bool.false_eq_true, if_false]
    exact four_status_count results

/-- C4: the pass rate of the summary always lies in `[0, 100]`; it equals
`passed / total * 100` when the total is positive and `0` when it is
zero. -/
theorem summary_pass_rate_bounds (parse : String → Option Int) (now : Int)
    (source_files : List String) (results : List TestResult) :
    0 ≤ (get_summary parse now source_files results).pass_rate ∧
    (get_summary parse now source_files results).pass_rate ≤ 100 ∧
    (get_summary parse now source_files results).pass_rate =
      if (get_summary parse now source_files results).total = 0 then 0
      else ((get_summary parse now source_files results).passed : Rat) /
        (get_summary parse now source_files results).total * 100 := by
  by_cases h : results.isEmpty
  · rw [List.isEmpty_iff] at h
    subst h
    simp [get_summary]
  · have hlen : 0 < results.length := by
      cases results with
      | nil => simp at h
      | cons a t => simp
    have hcount : statusCount results "PASSED" ≤ results.length :=
      List.countP_le_length _
    have hcast : (statusCount results "PASSED" : Rat) ≤ results.length := by
      exact_mod_cast hcount
    have hpos : (0 : Rat) < results.length := by exact_mod_cast hlen
    simp only [get_summary, h, Bool.false_eq_true, if_false, hlen, if_pos,
      Nat.pos_iff_ne_zero.mp hlen, if_neg]
    refine ⟨by positivity, ?_, ?_⟩
    · calc (statusCount results "PASSED" : Rat) / results.length * 100
          ≤ 1 * 100 := by
            apply mul_le_mul_of_nonneg_right _ (by norm_num)
            exact (div_le_one hpos).mpr hcast
        _ = 100 := by norm_num
    · simp [Nat.pos_iff_ne_zero.mp hlen]

/-- C5 counterexample: two `summary()` calls on the same one-record
aggregator state, observed at clock values 0 and 1, return different
summaries — the `last_updated` field records the `datetime.now()` of
the call itself. -/
theorem summary_not_call_invariant :
    get_summary (fun _ => none) 0 [] [sampleResult] ≠
      get_summary (fun _ => none) 1 [] [sampleResult] := by
  intro h
  have h2 := congrArg Summary.last_updated h
  simp [get_summary] at h2

/-- C5 (amended): two `summary()` calls with no intervening add or clear
agree on every field that does not depend on the clock (all counts, rates,
durations, breakdowns and source files); only `last_updated` and the
24-hour `recent_trends` window read `datetime.now()`, and two calls that
observe the same clock value return fully identical summaries. -/
theorem summary_repeated_calls_agree (parse : String → Option Int)
    (now1 now2 : Int) (source_files : List String)
    (results : List TestResult) :
    (get_summary parse now1 source_files results).total =
      (get_summary parse now2 source_files results).total ∧
    (get_summary parse now1 source_files results).passed =
      (get_summary parse now2 source_files results).passed ∧
    (get_summary parse now1 source_files results).failed =
      (get_summary parse now2 source_files results).failed ∧
    (get_summary parse now1 source_files results).skipped =
      (get_summary parse now2 source_files results).skipped ∧
    (get_summary parse now1 source_files results).errors =
      (get_summary parse now2 source_files results).errors ∧
    (get_summary parse now1 source_files results).pass_rate =
      (get_summary parse now2 source_files results).pass_rate ∧
    (get_summary parse now1 source_files results).total_duration =
      (get_summary parse now2 source_files results).total_duration ∧
    (get_summary parse now1 source_files results).avg_duration =
      (get_summary parse now2 source_files results).avg_duration ∧
    (get_summary parse now1 source_files results).suite_breakdown =
      (get_summary parse now2 source_files results).suite_breakdown ∧
    (get_summary parse now1 source_files results).category_breakdown =
      (get_summary parse now2 source_files results).category_breakdown ∧
    (get_summary parse now1 source_files results).status_breakdown =
      (get_summary parse now2 source_files results).status_breakdown ∧
    (get_summary parse now1 source_files results).source_files =
      (get_summary parse now2 source_files results).source_files ∧
    (now1 = now2 → get_summary parse now1 source_files results =
      get_summary parse now2 source_files results) := by
  refine ⟨?_, ?_, ?_, ?_, ?_, ?_, ?_, ?_, ?_, ?_, ?_, ?_,
    fun heq => heq ▸ rfl⟩ <;>
    by_cases h : results.isEmpty <;> simp [get_summary, h]

/-- Witness for the amended C5: at equal clock values the two summaries are
identical, and the totals agree even across different clock values. -/
theorem summary_repeated_calls_agree_witness :
    get_summary (fun _ => none) 5 [] [sampleResult] =
      get_summary (fun _ => none) 5 [] [sampleResult] ∧
    (get_summary (fun _ => none) 5 [] [sampleResult]).total =
      (get_summary (fun _ => none) 7 [] [sampleResult]).total :=
  ⟨(summary_repeated_calls_agree (fun _ => none) 5 5 []
      [sampleResult]).2.2.2.2.2.2.2.2.2.2.2.2 rfl,
   (summary_repeated_calls_agree (fun _ => none) 5 7 [] [sampleResult]).1⟩

/-- C9: `get_tests_by_status` returns exactly the stored records whose
status matches the query up to ASCII case, in input order (a sublist of the
input), even though summary counting matches statuses case-sensitively: a
record with status `passed` is returned for the query `PASSED` but is not
counted in the `passed` bucket of the summary. -/
theorem get_tests_by_status_case_insensitive (results : List TestResult)
    (status : String) :
    (get_tests_by_status results status).Sublist results ∧
    (∀ r, r ∈ get_tests_by_status results status ↔
      r ∈ results ∧ pyUpper r.status = pyUpper status) ∧
    (get_summary (fun _ => none) 0 [] [lowerPassedResult]).passed = 0 ∧
    get_tests_by_status [lowerPassedResult] "PASSED" =
      [lowerPassedResult] := by
  refine ⟨List.filter_sublist results, fun r => ?_, rfl, rfl⟩
  simp [get_tests_by_status, List.mem_filter]

/-- A record whose timestamp does not parse contributes nothing to a trend
bucket: the loop body of `get_trends_over_time` skips it. -/
theorem trendStep_skip (parse : String → Option Int) (kf : KeyFns)
    (period : String) (acc : List (String × PeriodCounts)) (r : TestResult)
    (h : parseResultTime parse r.timestamp = none) :
    trendStep parse kf period acc r = acc := by
  simp [trendStep, h]

/-- C7: a record whose timestamp string fails ISO-8601 parsing is included
in the last-24-hours sub-summary (`_get_recent_results` falls back to
inclusion) yet contributes to no bucket of `get_trends_over_time` for any
granularity — removing it leaves every period bucket, and hence the whole
trends output for a still-non-empty record set, unchanged. -/
theorem unparsable_timestamp_two_views (parse : String → Option Int)
    (kf : KeyFns) (now : Int) (period : String) (l1 l2 : List TestResult)
    (r : TestResult) (h : parseResultTime parse r.timestamp = none) :
    r ∈ get_recent_results parse now (l1 ++ r :: l2) 24 ∧
    period_data parse kf period (l1 ++ r :: l2) =
      period_data parse kf period (l1 ++ l2) ∧
    (l1 ++ l2 ≠ [] →
      get_trends_over_time parse kf period (l1 ++ r :: l2) =
        get_trends_over_time parse kf period (l1 ++ l2)) := by
  have hpd : period_data parse kf period (l1 ++ r :: l2) =
      period_data parse kf period (l1 ++ l2) := by
    simp only [period_data, List.foldl_append, List.foldl_cons]
    rw [trendStep_skip parse kf period _ r h]
  refine ⟨?_, hpd, fun hne => ?_⟩
  · apply List.mem_filter.mpr
    refine ⟨by simp, ?_⟩
    simp [h]
  · have h1 : (l1 ++ r :: l2).isEmpty = false := by simp
    have h2 : (l1 ++ l2).isEmpty = false := by
      cases hl : l1 ++ l2 with
      | nil => exact absurd hl hne
      | cons a t => simp
    simp only [get_trends_over_time, h1, h2, Bool.false_eq_true, if_false,
      hpd]

/-- Witness for C7 at a concrete unparsable record. -/
theorem unparsable_timestamp_two_views_witness :
    parseResultTime (fun _ => none) unparseableResult.timestamp = none ∧
    unparseableResult ∈ get_recent_results (fun _ => none) 0
      ([sampleResult] ++ unparseableResult :: []) 24 ∧
    period_data (fun _ => none) kf0 "daily"
        ([sampleResult] ++ unparseableResult :: []) =
      period_data (fun _ => none) kf0 "daily" ([sampleResult] ++ []) ∧
    get_trends_over_time (fun _ => none) kf0 "daily"
        ([sampleResult] ++ unparseableResult :: []) =
      get_trends_over_time (fun _ => none) kf0 "daily"
        ([sampleResult] ++ []) :=
  have main := unparsable_timestamp_two_views (fun _ => none) kf0 0 "daily"
    [sampleResult] [] unparseableResult rfl
  ⟨rfl, main.1, main.2.1, main.2.2 (by simp)⟩

/-- The descending duration comparison used to model `sorted(...,
key=duration, reverse=True)` is transitive. -/
theorem slowLe_trans (a b c : TestResult)
    (h1 : decide (b.duration ≤ a.duration) = true)
    (h2 : decide (c.duration ≤ b.duration) = true) :
    decide (c.duration ≤ a.duration) = true := by
  simp only [decide_eq_true_eq] at *
  exact le_trans h2 h1

/-- The descending duration comparison is total. -/
theorem slowLe_total (a b : TestResult) :
    (decide (b.duration ≤ a.duration) ||
      decide (a.duration ≤ b.duration)) = true := by
  simp only [Bool.or_eq_true, decide_eq_true_eq]
  exact le_total _ _

/-- Filtering a prefix-by-take is a prefix of filtering the whole list. -/
theorem filter_take_prefix_filter {α : Type} (p : α → Bool) :
    ∀ (l : List α) (n : Nat), (l.take n).filter p <+: l.filter p := by
  intro l
  induction l with
  | nil => intro n; simp
  | cons a t ih =>
    intro n
    cases n with
    | zero => exact List.nil_prefix
    | succ m =>
      simp only [List.take_succ_cons, List.filter_cons]
      by_cases hpa : p a
      · simp only [hpa, if_true]
        exact List.cons_prefix_cons.mpr ⟨rfl, ih m⟩
      · simp only [hpa, Bool.false_eq_true, if_false]
        exact ih m

/-- Stability of the modelled sort: elements tied under the sort key are
kept in input order, so filtering the sorted list by any predicate that
holds only at one key value recovers the filtered input sequence. -/
theorem mergeSort_filter_tied (p : TestResult → Bool)
    (hp : ∀ a b, p a = true → p b = true →
      decide (b.duration ≤ a.duration) = true) (l : List TestResult) :
    (l.mergeSort (fun a b => decide (b.duration ≤ a.duration))).filter p =
      l.filter p := by
  have hpair : (l.filter p).Pairwise
      (fun a b => decide (b.duration ≤ a.duration) = true) :=
    List.pairwise_of_forall_mem_list (fun a ha b hb =>
      hp a b (List.of_mem_filter ha) (List.of_mem_filter hb))
  have hsub : (l.filter p).Sublist
      (l.mergeSort (fun a b => decide (b.duration ≤ a.duration))) :=
    List.sublist_mergeSort slowLe_trans slowLe_total hpair
      (List.filter_sublist l)
  have hself : (l.filter p).filter p = l.filter p :=
    List.filter_eq_self.mpr (fun a ha => List.of_mem_filter ha)
  have hsub2 : (l.filter p).Sublist
      ((l.mergeSort (fun a b => decide (b.duration ≤ a.duration))).filter
        p) := by
    have := hsub.filter p
    rwa [hself] at this
  have hperm : ((l.mergeSort
        (fun a b => decide (b.duration ≤ a.duration))).filter p).Perm
      (l.filter p) := (List.mergeSort_perm l _).filter p
  exact (hsub2.eq_of_length (hperm.length_eq.symm)).symm

/-- C8: `get_slowest_tests` returns `min n total` records, in non-increasing
duration order, and records of equal duration appear in their original
input order (for every duration value, the returned records with that
duration form a prefix of the input records with that duration). -/
theorem get_slowest_tests_spec (results : List TestResult) (n : Nat) :
    (get_slowest_tests results n).length = min n results.length ∧
    (get_slowest_tests results n).Pairwise
      (fun a b => b.duration ≤ a.duration) ∧
    ∀ d : Rat,
      (get_slowest_tests results n).filter (fun r => r.duration == d) <+:
        results.filter (fun r => r.duration == d) := by
  refine ⟨?_, ?_, fun d => ?_⟩
  · simp [get_slowest_tests, List.length_take, List.length_mergeSort]
  · have hs := List.sorted_mergeSort slowLe_trans slowLe_total results
    have hp := List.Pairwise.sublist (List.take_sublist n _) hs
    exact hp.imp (fun h => of_decide_eq_true h)
  · have hfil := mergeSort_filter_tied (fun r => r.duration == d)
      (fun a b ha hb => by
        simp only [beq_iff_eq] at ha hb
        simp [ha, hb]) results
    rw [get_slowest_tests, ← hfil]
    exact filter_take_prefix_filter _ _ n
